import Mathlib

set_option maxHeartbeats 1000000

/-!
Shallow embedding of the RBAC core of the icesoft backend.

The embedding covers:
* the permission catalog and default-role permission tables of
  `utils/permissions.js` (both revisions present in the repository),
* the role records of `models/role.js`,
* the authentication and authorization middleware
  `middlewares/auth.middleware.js` (`authenticateUser`, `authorizePermission`),
* the role-management handlers `postRole`, `updateRole`, `deleteRole`
  of the role controller revision embedded in `controllers/sales.controller.js`.

Mongo documents become Lean structures, the role collection becomes a
`List RoleRec`, JWT verification becomes an explicit
`String → Option Claims` parameter, and each Express handler becomes a
function from its inputs to an outcome value (and, for mutating handlers,
the updated collection).
-/

/-- Complete catalog of permission strings, `ALL_PERMISSIONS` in the first
revision of `utils/permissions.js` (src/unnamed/part_010, lines 43-53). -/
def ALL_PERMISSIONS : List String :=
  ["view_roles", "view_roles_id", "create_roles", "update_roles", "delete_roles",
   "create_users", "view_users", "view_users_id", "update_users", "delete_users",
   "view_categories", "view_categories_id", "create_categories", "update_categories", "delete_categories",
   "view_products", "view_products_id", "create_products", "edit_products", "delete_products",
   "view_providers", "view_providers_id", "create_providers", "update_providers", "delete_providers",
   "view_purchases", "view_purchases_id", "create_purchases", "update_purchases", "delete_purchases",
   "view_branches", "create_branches", "update_branches", "delete_branches",
   "view_customers", "view_customers_id", "create_customers", "update_customers", "delete_customers",
   "view_sales", "view_sales_id", "create_sales", "update_sales", "delete_sales"]

/-- Entry of `DEFAULT_PERMISSIONS` for the key `admin`, first revision. -/
def DEFAULT_PERMISSIONS_admin : List String :=
  ["view_roles", "view_roles_id", "create_roles", "update_roles", "delete_roles",
   "create_users", "view_users", "view_users_id", "update_users", "delete_users",
   "view_categories", "view_categories_id", "create_categories", "update_categories", "delete_categories",
   "view_products", "view_products_id", "create_products", "edit_products", "delete_products",
   "view_providers", "view_providers_id", "create_providers", "update_providers", "delete_providers",
   "view_purchases", "view_purchases_id", "create_purchases", "update_purchases", "delete_purchases",
   "view_branches", "create_branches", "update_branches", "delete_branches",
   "view_customers", "view_customers_id", "create_customers", "update_customers", "delete_customers",
   "view_sales", "view_sales_id", "create_sales", "update_sales", "delete_sales"]

/-- Entry of `DEFAULT_PERMISSIONS` for the key `assistant`, first revision
(the source lists `view_customers` twice; the duplicate is kept). -/
def DEFAULT_PERMISSIONS_assistant : List String :=
  ["view_roles", "create_users", "view_users", "view_users_id", "update_users",
   "view_categories", "view_categories_id", "create_categories", "view_customers",
   "view_products", "view_products_id", "create_products", "edit_products", "delete_products",
   "view_providers", "view_providers_id", "create_providers", "update_providers",
   "view_purchases", "view_purchases_id", "create_purchases", "update_purchases",
   "view_customers", "view_customers_id", "create_customers", "update_customers",
   "view_sales", "view_sales_id", "create_sales", "update_sales"]

/-- Entry of `DEFAULT_PERMISSIONS` for the key `employee`, first revision. -/
def DEFAULT_PERMISSIONS_employee : List String :=
  ["view_categories", "view_products", "view_products_id", "create_products", "edit_products", "delete_products",
   "view_customers", "view_sales", "view_customers_id", "create_sales", "update_sales"]

/-- The function `getDefaultPermissions` of `utils/permissions.js`
(first revision): table lookup with `[]` for unknown role names. -/
def getDefaultPermissions (roleName : String) : List String :=
  if roleName = "admin" then DEFAULT_PERMISSIONS_admin
  else if roleName = "assistant" then DEFAULT_PERMISSIONS_assistant
  else if roleName = "employee" then DEFAULT_PERMISSIONS_employee
  else []

/-- Catalog `ALL_PERMISSIONS` in the second revision of
`utils/permissions.js` (src/unnamed/part_010, lines 163-173). -/
def ALL_PERMISSIONS_v2 : List String :=
  ["view_roles", "view_roles_id", "create_roles", "update_roles", "delete_roles",
   "create_users", "view_users", "view_users_id", "update_users", "delete_users",
   "view_categories", "view_categories_id", "create_categories", "update_categories", "delete_categories",
   "view_products", "view_products_id", "create_products", "edit_products", "delete_products",
   "view_providers", "view_providers_id", "create_providers", "update_providers", "delete_providers",
   "view_purchases", "view_purchases_id", "create_purchases", "update_purchases", "delete_purchases",
   "view_branches", "create_branches", "update_branches", "delete_branches",
   "view_customers", "view_customers_id", "create_customers", "update_customers", "delete_customers",
   "view_sales", "view_sales_id", "create_sales", "update_sales", "delete_sales"]

/-- Entry of `DEFAULT_PERMISSIONS` for the key `admin`, second revision
(this revision omits `view_roles_id`). -/
def DEFAULT_PERMISSIONS_admin_v2 : List String :=
  ["view_roles", "create_roles", "update_roles", "delete_roles",
   "create_users", "view_users", "view_users_id", "update_users", "delete_users",
   "view_categories", "view_categories_id", "create_categories", "update_categories", "delete_categories",
   "view_products", "view_products_id", "create_products", "edit_products", "delete_products",
   "view_providers", "view_providers_id", "create_providers", "update_providers", "delete_providers",
   "view_purchases", "view_purchases_id", "create_purchases", "update_purchases", "delete_purchases",
   "view_branches", "create_branches", "update_branches", "delete_branches",
   "view_customers", "view_customers_id", "create_customers", "update_customers", "delete_customers",
   "view_sales", "view_sales_id", "create_sales", "update_sales", "delete_sales"]

/-- Entry of `DEFAULT_PERMISSIONS` for the key `assistant`, second revision. -/
def DEFAULT_PERMISSIONS_assistant_v2 : List String :=
  ["view_roles", "create_users", "view_users", "view_users_id", "update_users",
   "view_categories", "create_categories", "update_categories", "view_customers",
   "view_products", "create_products", "update_products", "delete_products",
   "view_providers", "view_providers_id", "create_providers", "update_providers",
   "view_purchases", "view_purchases_id", "create_purchases", "update_purchases",
   "view_customers", "view_customers_id", "create_customers", "update_customers",
   "view_sales", "view_sales_id", "create_sales", "update_sales"]

/-- Entry of `DEFAULT_PERMISSIONS` for the key `employee`, second revision. -/
def DEFAULT_PERMISSIONS_employee_v2 : List String :=
  ["view_categories", "view_products", "view_customers", "view_sales", "view_customers_id",
   "create_sales", "update_sales"]

/-- The function `getDefaultPermissions` of the second revision of
`utils/permissions.js`. -/
def getDefaultPermissions_v2 (roleName : String) : List String :=
  if roleName = "admin" then DEFAULT_PERMISSIONS_admin_v2
  else if roleName = "assistant" then DEFAULT_PERMISSIONS_assistant_v2
  else if roleName = "employee" then DEFAULT_PERMISSIONS_employee_v2
  else []

/-- An element of a role's `permissions` array. The permission checks in
the middleware accept either a bare string or a `{ name }` subdocument
(`typeof p === 'string' ? p === permission : p.name === permission`);
the role schema of `models/role.js` stores `{ name }` subdocuments. -/
inductive PermEntry where
  | str (s : String)
  | obj (name : String)
deriving DecidableEq, Repr

/-- The comparison applied to one entry of `role.permissions` against the
requested permission inside `authorizePermission` and `checkPermissionSync`. -/
def permMatches : PermEntry → String → Bool
  | PermEntry.str s, action => s == action
  | PermEntry.obj n, action => n == action

/-- A stored role document (`RoleSchema` of `models/role.js`): a Mongo id,
a name (stored lowercase and trimmed by the schema), the `isDefault` flag
(schema default `false`), and the `permissions` array. -/
structure RoleRec where
  id : String
  name : String
  isDefault : Bool
  permissions : List PermEntry
deriving DecidableEq, Repr

/-- The static `Role.getDefaultRoles()` of `models/role.js`. -/
def getDefaultRoles : List String :=
  ["admin", "assistant", "employee"]

/-- The payload of a verified JWT as used by the middleware: `decoded.id`
and `decoded.role`. An absent claim is modelled by the empty string, which
is exactly what the middleware's truthiness test rejects. -/
structure Claims where
  id : String
  role : String
deriving DecidableEq, Repr

/-- The `req.user` object built by `authenticateUser` in
`middlewares/auth.middleware.js`: the subject id and the resolved role. -/
structure ReqUser where
  id : String
  role : RoleRec
deriving DecidableEq, Repr

/-- Outcome of the `authenticateUser` middleware: either `req.user` is set
and the chain continues, or a response with an HTTP status and message is
sent. -/
inductive AuthOutcome where
  | ok (user : ReqUser)
  | err (status : Nat) (message : String)
deriving DecidableEq, Repr

/-- Model of `mongoose.Types.ObjectId.isValid`: a 24-character hex string
or a 12-character string. -/
def isValidObjectId (s : String) : Bool :=
  (s.length == 24 && s.data.all (fun c =>
    c.isDigit || decide ('a' ≤ c ∧ c ≤ 'f') || decide ('A' ≤ c ∧ c ≤ 'F')))
  || s.length == 12

/-- Stripping of the `Bearer ` scheme in `authenticateUser`:
`if (token.startsWith("Bearer ")) token = token.slice(7)`. The character
list is manipulated directly (the header strings involved are ASCII, so
JS code-unit indexing and character indexing agree). -/
def stripBearer (t : String) : String :=
  if "Bearer ".data.isPrefixOf t.data then String.mk (t.data.drop 7) else t

/-- Role resolution of `authenticateUser`: by id when the reference is a
valid ObjectId (`Role.findById`), otherwise by name (`Role.findOne`). -/
def resolveRole (roles : List RoleRec) (ref : String) : Option RoleRec :=
  if isValidObjectId ref then roles.find? (fun r => r.id == ref)
  else roles.find? (fun r => r.name == ref)

/-- The `authenticateUser` middleware of `middlewares/auth.middleware.js`.
`header` is the raw `Authorization` header (`none` when absent; the empty
string is falsy in JS and also yields `No token provided`), `verify` is
`jwt.verify` returning `none` when verification throws, `roles` is the
role collection. This revision performs no user-record or status lookup. -/
def authenticateUser (header : Option String) (verify : String → Option Claims)
    (roles : List RoleRec) : AuthOutcome :=
  match header with
  | none => AuthOutcome.err 401 "No token provided"
  | some t =>
    if t = "" then AuthOutcome.err 401 "No token provided"
    else
      match verify (stripBearer t) with
      | none => AuthOutcome.err 401 "Token error"
      | some decoded =>
        if decoded.id = "" || decoded.role = "" then
          AuthOutcome.err 401 "Invalid token"
        else
          match resolveRole roles decoded.role with
          | none => AuthOutcome.err 403 "Role not found"
          | some role => AuthOutcome.ok ⟨decoded.id, role⟩

/-- Outcome of the `authorizePermission` guard: continue to the handler,
401 when `req.user` is missing, or the 403 payload
`{ message, required, role }`. -/
inductive AuthzOutcome where
  | allowed
  | authRequired
  | insufficient (required : String) (roleName : String)
deriving DecidableEq, Repr

/-- The `authorizePermission(permission)` guard of
`middlewares/auth.middleware.js`: admin passes unconditionally; a built-in
role name passes when the requested permission is in its default table;
any role passes when its non-empty stored `permissions` array contains a
matching entry; otherwise the 403 payload names the required permission
and the evaluated role. -/
def authorizePermission (permission : String) (user? : Option ReqUser) : AuthzOutcome :=
  match user? with
  | none => AuthzOutcome.authRequired
  | some u =>
    let roleName := u.role.name
    if roleName = "admin" then AuthzOutcome.allowed
    else if getDefaultRoles.contains roleName
            && (getDefaultPermissions roleName).contains permission then
      AuthzOutcome.allowed
    else if (!u.role.permissions.isEmpty)
            && u.role.permissions.any (fun p => permMatches p permission) then
      AuthzOutcome.allowed
    else
      AuthzOutcome.insufficient permission roleName

/-- The role argument of `checkPermissionSync` in `utils/permissions.js`:
the function accepts either a full role object or a role-name string. -/
inductive RoleArg where
  | obj (role : RoleRec)
  | byName (s : String)
deriving DecidableEq, Repr

/-- Truthiness of `DEFAULT_PERMISSIONS[name]`: the table has exactly the
three built-in keys. -/
def hasDefaultEntry (s : String) : Bool :=
  s == "admin" || s == "assistant" || s == "employee"

/-- The function `checkPermissionSync` of `utils/permissions.js` (first
revision, the one the middleware imports): a default role is checked
against the default table only; otherwise the stored `permissions` array
is checked (in the embedding a role document always carries its
`permissions` array, so the fall-through to the name branch for objects
is unreachable); a bare name is checked against the default table. -/
def checkPermissionSync (role : RoleArg) (action : String) : Bool :=
  match role with
  | RoleArg.obj r =>
    if r.isDefault && (r.name != "") && hasDefaultEntry r.name then
      (getDefaultPermissions r.name).contains action
    else
      r.permissions.any (fun p => permMatches p action)
  | RoleArg.byName s =>
    if hasDefaultEntry s then (getDefaultPermissions s).contains action
    else false

/-- JS `String.prototype.toLowerCase` restricted to ASCII (role names in
this system are ASCII, where Lean's `Char.toLower` agrees with JS). -/
def jsToLowerCase (s : String) : String :=
  String.mk (s.data.map Char.toLower)

/-- JS `String.prototype.trim`: strip leading and trailing whitespace. -/
def jsTrim (s : String) : String :=
  String.mk (((s.data.dropWhile Char.isWhitespace).reverse.dropWhile Char.isWhitespace).reverse)

/-- The normalization `name.toLowerCase().trim()` applied by `postRole`
and `updateRole` (and by the `lowercase`/`trim` setters of `RoleSchema`). -/
def jsNormalizeName (s : String) : String :=
  jsTrim (jsToLowerCase s)

/-- `Role.findById` on the role collection. -/
def findById (roles : List RoleRec) (id : String) : Option RoleRec :=
  roles.find? (fun r => r.id == id)

/-- `Role.findOne({ name })` on the role collection. -/
def findByName (roles : List RoleRec) (name : String) : Option RoleRec :=
  roles.find? (fun r => r.name == name)

/-- `role.save()` after mutating a fetched document: the record with the
same id is replaced in the collection. -/
def saveRole (roles : List RoleRec) (role : RoleRec) : List RoleRec :=
  roles.map (fun r => if r.id == role.id then role else r)

/-- Outcome of a role-management handler. -/
inductive RoleOpResult where
  | created (role : RoleRec)
  | updated (role : RoleRec)
  | deleted
  | err (status : Nat) (message : String)
deriving DecidableEq, Repr

/-- The `postRole` handler of the role controller revision in
`controllers/sales.controller.js` (lines 1214-1257): require a truthy
name, normalize it, reject a duplicate, seed a built-in name from the
default table (ignoring the request body's permissions), otherwise store
the supplied permissions (or none) as `{ name }` subdocuments, and append
the new document (with its store-assigned id `newId`). -/
def postRole (roles : List RoleRec) (newId : String) (name? : Option String)
    (permissions? : Option (List String)) : RoleOpResult × List RoleRec :=
  match name? with
  | none => (RoleOpResult.err 400 "Role name is required", roles)
  | some name =>
    if name = "" then (RoleOpResult.err 400 "Role name is required", roles)
    else
      let normalizedName := jsNormalizeName name
      match findByName roles normalizedName with
      | some _ => (RoleOpResult.err 400 "Role already exists", roles)
      | none =>
        let isDefault := getDefaultRoles.contains normalizedName
        let rolePermissions :=
          if isDefault then (getDefaultPermissions normalizedName).map PermEntry.obj
          else
            match permissions? with
            | some ps => ps.map PermEntry.obj
            | none => []
        let newRole : RoleRec := ⟨newId, normalizedName, isDefault, rolePermissions⟩
        (RoleOpResult.created newRole, roles ++ [newRole])

/-- The `updateRole` handler of `controllers/sales.controller.js`
(lines 1260-1296): 404 when the id resolves to nothing; reject a name
change on a default role (`role.isDefault && req.body.name &&
req.body.name.toLowerCase() !== role.name`); otherwise replace the
permissions array when one is supplied, rename a non-default role with
the normalized name, and save. -/
def updateRole (roles : List RoleRec) (id : String) (name? : Option String)
    (permissions? : Option (List String)) : RoleOpResult × List RoleRec :=
  match findById roles id with
  | none => (RoleOpResult.err 404 "Role not found", roles)
  | some role =>
    let nameBlocked :=
      role.isDefault && (match name? with
        | some n => (n != "") && (jsToLowerCase n != role.name)
        | none => false)
    if nameBlocked then
      (RoleOpResult.err 400 "Cannot change the name of default roles", roles)
    else
      let role1 :=
        match permissions? with
        | some ps => { role with permissions := ps.map PermEntry.obj }
        | none => role
      let role2 :=
        match name? with
        | some n => if (n != "") && (!role.isDefault) then { role1 with name := jsNormalizeName n } else role1
        | none => role1
      (RoleOpResult.updated role2, saveRole roles role2)

/-- The `deleteRole` handler of `controllers/sales.controller.js`
(lines 1299-1322): 404 when the id resolves to nothing, reject a default
role, otherwise remove the document (`Role.findByIdAndDelete`). -/
def deleteRole (roles : List RoleRec) (id : String) : RoleOpResult × List RoleRec :=
  match findById roles id with
  | none => (RoleOpResult.err 404 "Role not found", roles)
  | some role =>
    if role.isDefault then (RoleOpResult.err 400 "Cannot delete default roles", roles)
    else (RoleOpResult.deleted, roles.filter (fun r => !(r.id == id)))

/-- Concrete assistant identity carrying a supplementary stored
permission that is not in the assistant default table. -/
def demoAssistantUser : ReqUser :=
  ⟨"u2", ⟨"r2", "assistant", true, [PermEntry.obj "delete_sales"]⟩⟩

/-- Concrete admin identity with an empty stored permissions list. -/
def demoAdminUser : ReqUser :=
  ⟨"u1", ⟨"r1", "admin", true, []⟩⟩

/-- Concrete custom cashier identity, as in the specification's scenario. -/
def demoCashierUser : ReqUser :=
  ⟨"u3", ⟨"r3", "cashier", false, [PermEntry.obj "view_sales", PermEntry.obj "create_sales"]⟩⟩

/-- A stored user document as far as the status check is concerned
(`userSchema` plus the `status` field managed by the user controller). -/
structure UserRec where
  id : String
  status : String
deriving DecidableEq, Repr

/-- A user record that an administrator has set inactive. -/
def demoInactiveUser : UserRec :=
  ⟨"u1", "inactive"⟩

/-- The stored admin role resolved from the credential. -/
def demoAdminRole : RoleRec :=
  ⟨"r1", "admin", true, []⟩

/-- A verifier accepting exactly the token `good-token`, whose claims
name subject `u1` and role `admin`. -/
def demoVerify : String → Option Claims :=
  fun t => if t = "good-token" then some ⟨"u1", "admin"⟩ else none

/-- A one-role store holding the stored default admin role. -/
def demoRoleStore : List RoleRec := [demoAdminRole]

/-- Helper: `List.contains` agrees with membership on strings. -/
theorem contains_iff_mem (l : List String) (a : String) : l.contains a = true ↔ a ∈ l := by
  simp [List.contains, List.elem_iff]

/-- Helper: the default table of the first revision maps `admin` to the
full catalog, verbatim. -/
theorem getDefaultPermissions_admin_eq : getDefaultPermissions "admin" = ALL_PERMISSIONS := by
  decide

/-- Helper: exact characterization of when `authorizePermission` lets a
request through, mirroring its three allow branches. -/
theorem authorize_allowed_iff (u : ReqUser) (p : String) :
    authorizePermission p (some u) = AuthzOutcome.allowed ↔
      (u.role.name = "admin" ∨
       (u.role.name ∈ getDefaultRoles ∧ p ∈ getDefaultPermissions u.role.name) ∨
       ∃ e ∈ u.role.permissions, permMatches e p = true) := by
  simp only [authorizePermission]
  by_cases h1 : u.role.name = "admin"
  · simp [h1]
  · rw [if_neg h1]
    by_cases h2 : (getDefaultRoles.contains u.role.name
        && (getDefaultPermissions u.role.name).contains p) = true
    · rw [if_pos h2]
      rw [Bool.and_eq_true, contains_iff_mem, contains_iff_mem] at h2
      simp only [true_iff]
      exact Or.inr (Or.inl h2)
    · rw [if_neg h2]
      rw [Bool.and_eq_true, contains_iff_mem, contains_iff_mem] at h2
      by_cases h3 : ((!u.role.permissions.isEmpty)
          && u.role.permissions.any (fun q => permMatches q p)) = true
      · rw [if_pos h3]
        rw [Bool.and_eq_true, List.any_eq_true] at h3
        simp only [true_iff]
        exact Or.inr (Or.inr h3.2)
      · rw [if_neg h3]
        rw [Bool.and_eq_true, List.any_eq_true] at h3
        constructor
        · intro hcontra
          exact absurd hcontra (by simp)
        · rintro (hadm | hdef | ⟨e, he, hm⟩)
          · exact absurd hadm h1
          · exact absurd hdef h2
          · exfalso
            apply h3
            refine ⟨?_, ⟨e, he, hm⟩⟩
            cases hperm : u.role.permissions with
            | nil => rw [hperm] at he; simp at he
            | cons a as => rfl

/-- Helper: the guard applied to an authenticated user either allows or
answers with the 403 payload naming the permission and the role. -/
theorem authorize_cases (u : ReqUser) (p : String) :
    authorizePermission p (some u) = AuthzOutcome.allowed ∨
    authorizePermission p (some u) = AuthzOutcome.insufficient p u.role.name := by
  simp only [authorizePermission]
  split_ifs <;> simp

/-- Claim C1: for an identity whose resolved role bears one of the
built-in names and any catalog permission `p`, `authorizePermission`
allows `p` exactly when `p` is in the hardcoded default list for that
name or matches an entry of the role's stored permissions list; the two
checks are additive. -/
theorem builtin_role_authorization_additive (u : ReqUser) (p : String)
    (hname : u.role.name ∈ getDefaultRoles) (hp : p ∈ ALL_PERMISSIONS) :
    authorizePermission p (some u) = AuthzOutcome.allowed ↔
      (p ∈ getDefaultPermissions u.role.name ∨
       ∃ e ∈ u.role.permissions, permMatches e p = true) := by
  rw [authorize_allowed_iff]
  constructor
  · rintro (hadm | ⟨-, hd⟩ | hs)
    · left
      rw [hadm, getDefaultPermissions_admin_eq]
      exact hp
    · left; exact hd
    · right; exact hs
  · rintro (hd | hs)
    · exact Or.inr (Or.inl ⟨hname, hd⟩)
    · exact Or.inr (Or.inr hs)

/-- Witness for C1: the assistant identity above, requesting
`delete_sales`, satisfies the hypotheses and the equivalence. -/
theorem builtin_role_authorization_additive_witness :
    demoAssistantUser.role.name ∈ getDefaultRoles ∧
    "delete_sales" ∈ ALL_PERMISSIONS ∧
    (authorizePermission "delete_sales" (some demoAssistantUser) = AuthzOutcome.allowed ↔
      ("delete_sales" ∈ getDefaultPermissions demoAssistantUser.role.name ∨
       ∃ e ∈ demoAssistantUser.role.permissions, permMatches e "delete_sales" = true)) :=
  ⟨by decide, by decide,
   builtin_role_authorization_additive demoAssistantUser "delete_sales" (by decide) (by decide)⟩

/-- Claim C2: an identity whose resolved role is named `admin` is allowed
every permission of the catalog unconditionally. -/
theorem admin_role_allows_catalog (u : ReqUser) (p : String)
    (hrole : u.role.name = "admin") (hp : p ∈ ALL_PERMISSIONS) :
    authorizePermission p (some u) = AuthzOutcome.allowed := by
  simp only [authorizePermission]
  rw [if_pos hrole]

/-- Witness for C2: the admin identity above is allowed `view_roles_id`. -/
theorem admin_role_allows_catalog_witness :
    demoAdminUser.role.name = "admin" ∧
    "view_roles_id" ∈ ALL_PERMISSIONS ∧
    authorizePermission "view_roles_id" (some demoAdminUser) = AuthzOutcome.allowed :=
  ⟨rfl, by decide, admin_role_allows_catalog demoAdminUser "view_roles_id" rfl (by decide)⟩

/-- Claim C4: for an identity whose resolved role is custom
(`isDefault = false`, name not built-in), `authorizePermission` allows a
permission exactly when the stored permissions list has a matching entry,
and every other permission gets the 403 payload; there is no
default-table fallback for non-built-in names. -/
theorem custom_role_authorization_iff (u : ReqUser) (p : String)
    (hdef : u.role.isDefault = false) (hname : u.role.name ∉ getDefaultRoles) :
    (authorizePermission p (some u) = AuthzOutcome.allowed ↔
      ∃ e ∈ u.role.permissions, permMatches e p = true) ∧
    ((¬ ∃ e ∈ u.role.permissions, permMatches e p = true) →
      authorizePermission p (some u) = AuthzOutcome.insufficient p u.role.name) := by
  have hadm : u.role.name ≠ "admin" := by
    intro h
    apply hname
    rw [h]
    decide
  constructor
  · rw [authorize_allowed_iff]
    constructor
    · rintro (h | ⟨hmem, -⟩ | hs)
      · exact absurd h hadm
      · exact absurd hmem hname
      · exact hs
    · intro hs
      exact Or.inr (Or.inr hs)
  · intro hno
    rcases authorize_cases u p with hall | hins
    · rw [authorize_allowed_iff] at hall
      rcases hall with h | ⟨hmem, -⟩ | hs
      · exact absurd h hadm
      · exact absurd hmem hname
      · exact absurd hs hno
    · exact hins

/-- Witness for C4: the cashier identity above, requesting
`view_products`, satisfies the hypotheses and both conclusions. -/
theorem custom_role_authorization_iff_witness :
    demoCashierUser.role.isDefault = false ∧
    demoCashierUser.role.name ∉ getDefaultRoles ∧
    ((authorizePermission "view_products" (some demoCashierUser) = AuthzOutcome.allowed ↔
       ∃ e ∈ demoCashierUser.role.permissions, permMatches e "view_products" = true) ∧
     ((¬ ∃ e ∈ demoCashierUser.role.permissions, permMatches e "view_products" = true) →
       authorizePermission "view_products" (some demoCashierUser)
         = AuthzOutcome.insufficient "view_products" demoCashierUser.role.name)) :=
  ⟨rfl, by decide,
   custom_role_authorization_iff demoCashierUser "view_products" rfl (by decide)⟩

/-- Counterexample for C6: in the second revision of
`utils/permissions.js` the catalog contains `view_roles_id` but the
hardcoded admin default list does not, so the admin default set does not
equal the catalog there. -/
theorem admin_defaults_v2_missing_catalog_entry :
    "view_roles_id" ∈ ALL_PERMISSIONS_v2 ∧
    "view_roles_id" ∉ getDefaultPermissions_v2 "admin" := by
  decide

/-- Claim C6 (amended): in the first revision the admin default list is
the catalog verbatim; in the second revision the admin default list is
the catalog with `view_roles_id` removed, hence a strict subset. -/
theorem admin_defaults_vs_catalog :
    getDefaultPermissions "admin" = ALL_PERMISSIONS ∧
    getDefaultPermissions_v2 "admin" = ALL_PERMISSIONS_v2.erase "view_roles_id" ∧
    ALL_PERMISSIONS_v2 = ALL_PERMISSIONS := by
  refine ⟨getDefaultPermissions_admin_eq, ?_, rfl⟩
  decide

/-- Claim C3, evaluated at the failing input: the `authenticateUser` of
`middlewares/auth.middleware.js` never loads the user record, so the
otherwise-valid credential of subject `u1` — whose stored record is
inactive — still produces an identity, and `authorizePermission` then
allows role-granted permissions instead of denying every permission. -/
theorem inactive_user_not_locked_out :
    demoInactiveUser.id = "u1" ∧
    demoInactiveUser.status = "inactive" ∧
    authenticateUser (some "Bearer good-token") demoVerify [demoAdminRole]
      = AuthOutcome.ok ⟨"u1", demoAdminRole⟩ ∧
    authorizePermission "delete_users" (some ⟨"u1", demoAdminRole⟩) = AuthzOutcome.allowed := by
  refine ⟨rfl, rfl, by decide, by decide⟩

/-- Counterexample for C5: when the role reference of an otherwise-valid
credential resolves to no stored role, `authenticateUser` responds with
status 403, not 401 as the claim states. -/
theorem role_not_found_status_403 :
    authenticateUser (some "tkn") (fun _ => some ⟨"u1", "ghost"⟩) []
      = AuthOutcome.err 403 "Role not found" ∧ (403 : Nat) ≠ 401 := by
  refine ⟨by decide, by decide⟩

/-- Claim C5 (amended): `authenticateUser` either produces an identity or
responds with one of the listed reasons — 401 for a missing header, a
failed verification, or malformed claims, but 403 for an unresolved role
reference; in particular a missing header yields `No token provided`, a
header failing verification yields `Token error`, and a credential whose
role resolves to nothing yields `Role not found` with status 403; no
failure path produces an identity. -/
theorem authenticate_guard_outcomes (header : Option String)
    (verify : String → Option Claims) (roles : List RoleRec) :
    ((∃ u, authenticateUser header verify roles = AuthOutcome.ok u) ∨
     (∃ s m, authenticateUser header verify roles = AuthOutcome.err s m ∧
        (s, m) ∈ [(401, "No token provided"), (401, "Token error"),
                  (401, "Invalid token"), (403, "Role not found")])) ∧
    (header = none →
      authenticateUser header verify roles = AuthOutcome.err 401 "No token provided") ∧
    (∀ t, header = some t → t ≠ "" → verify (stripBearer t) = none →
      authenticateUser header verify roles = AuthOutcome.err 401 "Token error") ∧
    (∀ t c, header = some t → t ≠ "" → verify (stripBearer t) = some c →
      c.id ≠ "" → c.role ≠ "" → resolveRole roles c.role = none →
      authenticateUser header verify roles = AuthOutcome.err 403 "Role not found") := by
  refine ⟨?_, ?_, ?_, ?_⟩
  · cases header with
    | none =>
      right
      exact ⟨401, "No token provided", rfl, by simp⟩
    | some t =>
      simp only [authenticateUser]
      by_cases h0 : t = ""
      · right
        exact ⟨401, "No token provided", by simp [h0], by simp⟩
      · rw [if_neg h0]
        cases hv : verify (stripBearer t) with
        | none =>
          right
          exact ⟨401, "Token error", by simp, by simp⟩
        | some c =>
          by_cases hid : c.id = ""
          · right
            exact ⟨401, "Invalid token", by simp [hid], by simp⟩
          · by_cases hrole : c.role = ""
            · right
              exact ⟨401, "Invalid token", by simp [hrole], by simp⟩
            · cases hr : resolveRole roles c.role with
              | none =>
                right
                exact ⟨403, "Role not found", by simp [hid, hrole, hr], by simp⟩
              | some role =>
                left
                exact ⟨⟨c.id, role⟩, by simp [hid, hrole, hr]⟩
  · rintro rfl
    rfl
  · rintro t rfl ht hv
    simp [authenticateUser, ht, hv]
  · rintro t c rfl ht hv hid hrole hr
    simp [authenticateUser, ht, hv, hid, hrole, hr]

/-- Witness for C5: a request without an `Authorization` header gets the
missing-credential response. -/
theorem authenticate_guard_outcomes_witness :
    authenticateUser none demoVerify [] = AuthOutcome.err 401 "No token provided" :=
  (authenticate_guard_outcomes none demoVerify []).2.1 rfl

/-- Claim C7: creating a role whose name, after lowercasing and trimming,
equals the name of a stored role fails with the duplicate-name error and
leaves the store unchanged; case and surrounding whitespace do not bypass
the check. -/
theorem duplicate_role_name_rejected (roles : List RoleRec) (r : RoleRec) (newId name : String)
    (perms? : Option (List String))
    (hr : r ∈ roles) (hnorm : jsNormalizeName name = r.name) (hne : name ≠ "") :
    postRole roles newId (some name) perms? = (RoleOpResult.err 400 "Role already exists", roles) := by
  simp only [postRole]
  rw [if_neg hne]
  cases hfind : findByName roles (jsNormalizeName name) with
  | none =>
    exfalso
    simp only [findByName] at hfind
    have := List.find?_eq_none.mp hfind r hr
    rw [hnorm] at this
    simp at this
  | some x => simp [hfind]

/-- Witness for C7: creating `" Admin "` while `"admin"` is stored is
rejected as a duplicate. -/
theorem duplicate_role_name_rejected_witness :
    demoAdminRole ∈ demoRoleStore ∧
    jsNormalizeName " Admin " = demoAdminRole.name ∧
    (" Admin " : String) ≠ "" ∧
    postRole demoRoleStore "r9" (some " Admin ") none =
      (RoleOpResult.err 400 "Role already exists", demoRoleStore) :=
  ⟨by decide, by decide, by decide,
   duplicate_role_name_rejected demoRoleStore demoAdminRole "r9" " Admin " none
     (by decide) (by decide) (by decide)⟩

/-- Claim C8: for a stored role with `isDefault = true`, an update
request carrying a different name fails with the immutable-name error
and leaves the store unchanged, and a delete request fails with the
protected-role error and leaves the store unchanged. -/
theorem default_role_rename_and_delete_rejected (roles : List RoleRec) (id : String) (r : RoleRec)
    (n : String) (perms? : Option (List String))
    (hfind : findById roles id = some r) (hdef : r.isDefault = true)
    (hne : n ≠ "") (hch : jsToLowerCase n ≠ r.name) :
    updateRole roles id (some n) perms? =
      (RoleOpResult.err 400 "Cannot change the name of default roles", roles) ∧
    deleteRole roles id = (RoleOpResult.err 400 "Cannot delete default roles", roles) := by
  constructor
  · simp [updateRole, hfind, hdef, hne, hch]
  · simp [deleteRole, hfind, hdef]

/-- Witness for C8: renaming or deleting the stored default admin role is
rejected. -/
theorem default_role_rename_and_delete_rejected_witness :
    findById demoRoleStore "r1" = some demoAdminRole ∧
    demoAdminRole.isDefault = true ∧
    ("superadmin" : String) ≠ "" ∧
    jsToLowerCase "superadmin" ≠ demoAdminRole.name ∧
    (updateRole demoRoleStore "r1" (some "superadmin") none =
       (RoleOpResult.err 400 "Cannot change the name of default roles", demoRoleStore) ∧
     deleteRole demoRoleStore "r1" =
       (RoleOpResult.err 400 "Cannot delete default roles", demoRoleStore)) :=
  ⟨by decide, rfl, by decide, by decide,
   default_role_rename_and_delete_rejected demoRoleStore "r1" demoAdminRole "superadmin" none
     (by decide) rfl (by decide) (by decide)⟩

/-- Claim C9: role creation with a built-in normalized name produces a
role with `isDefault = true` whose stored permissions are seeded from the
default table regardless of the caller-supplied list; any other name
produces `isDefault = false` with the caller-supplied list (or an empty
list when none is supplied). -/
theorem post_role_seeding (roles : List RoleRec) (newId name : String) (perms? : Option (List String))
    (hne : name ≠ "") (hnew : findByName roles (jsNormalizeName name) = none) :
    (jsNormalizeName name ∈ getDefaultRoles →
      postRole roles newId (some name) perms? =
        (RoleOpResult.created ⟨newId, jsNormalizeName name, true,
            (getDefaultPermissions (jsNormalizeName name)).map PermEntry.obj⟩,
         roles ++ [⟨newId, jsNormalizeName name, true,
            (getDefaultPermissions (jsNormalizeName name)).map PermEntry.obj⟩])) ∧
    (jsNormalizeName name ∉ getDefaultRoles →
      postRole roles newId (some name) perms? =
        (RoleOpResult.created ⟨newId, jsNormalizeName name, false,
            (perms?.getD []).map PermEntry.obj⟩,
         roles ++ [⟨newId, jsNormalizeName name, false,
            (perms?.getD []).map PermEntry.obj⟩])) := by
  constructor
  · intro h
    have hc : getDefaultRoles.contains (jsNormalizeName name) = true := (contains_iff_mem _ _).mpr h
    simp only [postRole, hne, hnew, hc]
    simp [hc]
  · intro h
    have hc : getDefaultRoles.contains (jsNormalizeName name) = false := by
      cases hcc : getDefaultRoles.contains (jsNormalizeName name)
      · rfl
      · exact absurd ((contains_iff_mem _ _).mp hcc) h
    cases hp : perms? with
    | none =>
      simp [postRole, hne, hnew, hc]
      exact ⟨h, fun hcon => absurd hcon h⟩
    | some ps =>
      simp [postRole, hne, hnew, hc]
      exact ⟨h, fun hcon => absurd hcon h⟩

/-- Witness for C9: creating `"Admin"` on an empty store yields the
default admin role seeded from the table, ignoring the supplied list. -/
theorem post_role_seeding_witness :
    ("Admin" : String) ≠ "" ∧
    findByName [] (jsNormalizeName "Admin") = none ∧
    jsNormalizeName "Admin" ∈ getDefaultRoles ∧
    postRole [] "r9" (some "Admin") (some ["hack"]) =
      (RoleOpResult.created ⟨"r9", jsNormalizeName "Admin", true,
          (getDefaultPermissions (jsNormalizeName "Admin")).map PermEntry.obj⟩,
       [] ++ [⟨"r9", jsNormalizeName "Admin", true,
          (getDefaultPermissions (jsNormalizeName "Admin")).map PermEntry.obj⟩]) :=
  ⟨by decide, rfl, by decide,
   (post_role_seeding [] "r9" "Admin" (some ["hack"]) (by decide) rfl).1 (by decide)⟩

/-- Claim C10: for any stored role, default ones included, an update
request supplying only a permissions array succeeds, replaces the stored
permissions list, and leaves the role's name and `isDefault` flag
unchanged. -/
theorem update_role_permissions_replacement (roles : List RoleRec) (id : String) (r : RoleRec)
    (ps : List String) (hfind : findById roles id = some r) :
    updateRole roles id none (some ps) =
      (RoleOpResult.updated { r with permissions := ps.map PermEntry.obj },
       saveRole roles { r with permissions := ps.map PermEntry.obj }) ∧
    ({ r with permissions := ps.map PermEntry.obj } : RoleRec).name = r.name ∧
    ({ r with permissions := ps.map PermEntry.obj } : RoleRec).isDefault = r.isDefault := by
  refine ⟨?_, rfl, rfl⟩
  simp [updateRole, hfind]

/-- Witness for C10: replacing the permissions of the stored default
admin role succeeds and keeps its name and flag. -/
theorem update_role_permissions_replacement_witness :
    findById demoRoleStore "r1" = some demoAdminRole ∧
    (updateRole demoRoleStore "r1" none (some ["view_sales"]) =
       (RoleOpResult.updated { demoAdminRole with permissions := ["view_sales"].map PermEntry.obj },
        saveRole demoRoleStore { demoAdminRole with permissions := ["view_sales"].map PermEntry.obj }) ∧
     ({ demoAdminRole with permissions := ["view_sales"].map PermEntry.obj } : RoleRec).name = demoAdminRole.name ∧
     ({ demoAdminRole with permissions := ["view_sales"].map PermEntry.obj } : RoleRec).isDefault = demoAdminRole.isDefault) :=
  ⟨by decide,
   update_role_permissions_replacement demoRoleStore "r1" demoAdminRole ["view_sales"] (by decide)⟩
